import Mathlib

/-!
Formal model of the goalie entity of the SoccerGame shared-memory simulation
(semSharedMemGoalie.c).  The shared structure fSt is embedded as a record of
integer counters plus a list of per-goalie statuses; every semaphore operation
a goalie function performs is recorded in an explicit event trace, so that
claims about what happens inside or outside the mutex-protected critical
region become statements about the trace.
-/

/-- Status values of a goalie, from the state enumeration used by
semSharedMemGoalie.c. -/
inductive GState where
  | ARRIVING
  | WAITING_TEAM
  | FORMING_TEAM
  | LATE
  | WAITING_START_1
  | WAITING_START_2
  | PLAYING_1
  | PLAYING_2
  deriving DecidableEq

/-- The seven directed wake-up semaphores touched by the goalie code
(the mutex is modelled separately, by the lock/unlock events). -/
inductive Chan where
  | playersWaitTeam
  | playerRegistered
  | goaliesWaitTeam
  | refereeWaitTeams
  | playersWaitReferee
  | playing
  | playersWaitEnd
  deriving DecidableEq, BEq

/-- One observable action of a goalie function: acquiring or releasing the
mutex, signalling a channel (semUp), blocking on a channel (semDown), or
claiming a team identifier from the shared counter. -/
inductive Event where
  | lock
  | unlock
  | up (c : Chan)
  | down (c : Chan)
  | claimTeam
  deriving DecidableEq, BEq

/-- Modelled from the spec: probConst.h is not among the source files; the
specification's concrete scenario fixes NUM_TEAM_GOALIES = 1. -/
def NUMTEAMGOALIES : Nat := 1

/-- Modelled from the spec: probConst.h is not among the source files; the
specification's concrete scenario fixes NUM_TEAM_PLAYERS = 5. -/
def NUMTEAMPLAYERS : Nat := 5

/-- The part of the shared structure fSt that the goalie code reads or
writes: the per-goalie status table and the formation counters.  C ints are
modelled as Int. -/
structure FSt where
  goalieStat : List GState
  goaliesArrived : Int
  goaliesFree : Int
  playersFree : Int
  teamId : Int
  deriving DecidableEq

/-- Which branch of the critical section of goalieConstituteTeam ran. -/
inductive Outcome where
  | forming
  | waiting
  | late
  deriving DecidableEq

/-- Result of the mutex-protected part of goalieConstituteTeam: the updated
shared state, the branch taken, and the value of the local variable ret when
the mutex is released. -/
structure CSResult where
  st : FSt
  out : Outcome
  ret : Int
  deriving DecidableEq

/-- The critical section of goalieConstituteTeam (everything between the
semDown and semUp on the mutex): increment goaliesFree and goaliesArrived;
if goaliesArrived is still at most 2, either wait (quota not met) or form the
team (reserve both quotas, later claim teamId by post-increment); otherwise
mark the goalie LATE.  The teamId post-increment of the forming branch is
part of this critical section in the source. -/
def constituteTeamCS (id : Nat) (s : FSt) : CSResult :=
  let s1 : FSt :=
    { s with goaliesFree := s.goaliesFree + 1, goaliesArrived := s.goaliesArrived + 1 }
  if s1.goaliesArrived ≤ 2 then
    if s1.playersFree < (NUMTEAMPLAYERS : Int) ∨ s1.goaliesFree < (NUMTEAMGOALIES : Int) then
      { st := { s1 with goalieStat := s1.goalieStat.set id GState.WAITING_TEAM },
        out := Outcome.waiting, ret := 0 }
    else
      { st := { s1 with
                  goalieStat := s1.goalieStat.set id GState.FORMING_TEAM,
                  playersFree := s1.playersFree - (NUMTEAMPLAYERS : Int),
                  goaliesFree := s1.goaliesFree - (NUMTEAMGOALIES : Int),
                  teamId := s1.teamId + 1 },
        out := Outcome.forming, ret := s1.teamId }
  else
    { st := { s1 with goalieStat := s1.goalieStat.set id GState.LATE },
      out := Outcome.late, ret := 0 }

/-- Full goalieConstituteTeam return value.  After the critical section the
code re-checks its own status slot and, when it reads WAITING_TEAM, blocks on
goaliesWaitTeam and then reads the shared teamId field; wake is the shared
state at the moment that read happens (only the goalie itself ever writes its
own status slot, so the status re-read is taken from the critical section's
result state). -/
def goalieConstituteTeam (id : Nat) (s wake : FSt) : Int :=
  let r := constituteTeamCS id s
  if r.st.goalieStat.getD id GState.ARRIVING = GState.WAITING_TEAM then wake.teamId
  else r.ret

/-- Channel events of the forming branch's release loop: n iterations of
semUp(playersWaitTeam) immediately followed by semDown(playerRegistered),
mirroring the for loop of the source. -/
def formingLoop : Nat → List Event
  | 0 => []
  | n + 1 => formingLoop n ++ [Event.up Chan.playersWaitTeam, Event.down Chan.playerRegistered]

/-- Channel events of the whole forming branch: the release loop, then the
teamId post-increment, then semUp(refereeWaitTeams). -/
def formingScript : List Event :=
  formingLoop NUMTEAMPLAYERS ++ [Event.claimTeam, Event.up Chan.refereeWaitTeams]

/-- Event trace of goalieConstituteTeam: mutex acquire, the branch's events,
mutex release, and then, exactly when the status re-read yields WAITING_TEAM,
the block on goaliesWaitTeam followed by the registered acknowledgment. -/
def constituteTeamTrace (id : Nat) (s : FSt) : List Event :=
  let r := constituteTeamCS id s
  Event.lock ::
    ((match r.out with
      | Outcome.forming => formingScript
      | _ => []) ++
      Event.unlock ::
        (if r.st.goalieStat.getD id GState.ARRIVING = GState.WAITING_TEAM then
          [Event.down Chan.goaliesWaitTeam, Event.up Chan.playerRegistered]
        else []))

/-- State effect of arrive: set the goalie's own status to ARRIVING. -/
def arriveFSt (id : Nat) (s : FSt) : FSt :=
  { s with goalieStat := s.goalieStat.set id GState.ARRIVING }

/-- Event trace of arrive: one critical section, no channel operation. -/
def arriveTrace : List Event := [Event.lock, Event.unlock]

/-- State effect of waitReferee: set the goalie's own status to
WAITING_START_1 when team equals 1 and to WAITING_START_2 otherwise. -/
def waitRefereeFSt (id : Nat) (team : Int) (s : FSt) : FSt :=
  { s with goalieStat := s.goalieStat.set id
             (if team = 1 then GState.WAITING_START_1 else GState.WAITING_START_2) }

/-- Event trace of waitReferee: critical section, then block on
playersWaitReferee, then signal playing. -/
def waitRefereeTrace : List Event :=
  [Event.lock, Event.unlock, Event.down Chan.playersWaitReferee, Event.up Chan.playing]

/-- State effect of playUntilEnd: set the goalie's own status to PLAYING_1
when team equals 1 and to PLAYING_2 otherwise. -/
def playUntilEndFSt (id : Nat) (team : Int) (s : FSt) : FSt :=
  { s with goalieStat := s.goalieStat.set id
             (if team = 1 then GState.PLAYING_1 else GState.PLAYING_2) }

/-- Event trace of playUntilEnd: critical section, then block on
playersWaitEnd. -/
def playUntilEndTrace : List Event :=
  [Event.lock, Event.unlock, Event.down Chan.playersWaitEnd]

/-- Channels on which a blocking semDown is performed while the mutex is
held, scanning the trace with the given initial held flag. -/
def blockingWhileHeld : List Event → Bool → List Chan
  | [], _ => []
  | Event.lock :: es, _ => blockingWhileHeld es true
  | Event.unlock :: es, _ => blockingWhileHeld es false
  | Event.up _ :: es, held => blockingWhileHeld es held
  | Event.claimTeam :: es, held => blockingWhileHeld es held
  | Event.down c :: es, held => (if held then [c] else []) ++ blockingWhileHeld es held

/-- The phases of the goalie life cycle in main. -/
inductive Phase where
  | arriveP
  | constituteP
  | waitRefP
  | playP
  deriving DecidableEq

/-- The phases main runs for a goalie whose goalieConstituteTeam returned
ret: waitReferee and playUntilEnd run exactly when ret is nonzero. -/
def mainPhases (ret : Int) : List Phase :=
  Phase.arriveP :: Phase.constituteP ::
    (if ret ≠ 0 then [Phase.waitRefP, Phase.playP] else [])

/-- Event trace of the whole life cycle of main, where s is the shared state
when the goalie enters the constitution critical section and wake the shared
state at the waiting branch's post-wake read. -/
def lifeCycleTrace (id : Nat) (s wake : FSt) : List Event :=
  arriveTrace ++ constituteTeamTrace id s ++
    (if goalieConstituteTeam id s wake ≠ 0 then waitRefereeTrace ++ playUntilEndTrace
    else [])

/-- Run the constitution critical section for each goalie id in turn. -/
def runCS : List Nat → FSt → FSt
  | [], s => s
  | id :: rest, s => runCS rest (constituteTeamCS id s).st

/-- Number of teams formed along a run of constitution critical sections. -/
def formedCount : List Nat → FSt → Nat
  | [], _ => 0
  | id :: rest, s =>
    (if (constituteTeamCS id s).out = Outcome.forming then 1 else 0) +
      formedCount rest (constituteTeamCS id s).st

/-- Team identifiers claimed by the forming (Arbiter) steps of a run, in
order. -/
def claimedIds : List Nat → FSt → List Int
  | [], _ => []
  | id :: rest, s =>
    (if (constituteTeamCS id s).out = Outcome.forming then [(constituteTeamCS id s).ret]
    else []) ++ claimedIds rest (constituteTeamCS id s).st

/-! Helper lemmas about list indexing and the critical-section branches. -/

theorem getD_set_self {α : Type} (l : List α) (i : Nat) (a d : α) (h : i < l.length) :
    (l.set i a).getD i d = a := by
  induction l generalizing i with
  | nil => simp at h
  | cons x xs ih =>
    cases i with
    | zero => simp
    | succ n => simpa using ih n (by simpa using h)

theorem getD_set_other {α : Type} (l : List α) (i j : Nat) (a d : α) (h : i ≠ j) :
    (l.set i a).getD j d = l.getD j d := by
  induction l generalizing i j with
  | nil => simp
  | cons x xs ih =>
    cases i with
    | zero =>
      cases j with
      | zero => exact absurd rfl h
      | succ m => simp
    | succ n =>
      cases j with
      | zero => simp
      | succ m => simpa using ih n m (by omega)

theorem cs_out_late_iff (id : Nat) (s : FSt) :
    (constituteTeamCS id s).out = Outcome.late ↔ 2 < s.goaliesArrived + 1 := by
  simp only [constituteTeamCS, NUMTEAMPLAYERS, NUMTEAMGOALIES, Nat.cast_ofNat, Nat.cast_one]
  split_ifs with h1 h2 <;> simp_all <;> omega

theorem cs_out_waiting_iff (id : Nat) (s : FSt) :
    (constituteTeamCS id s).out = Outcome.waiting ↔
      s.goaliesArrived + 1 ≤ 2 ∧
        (s.playersFree < (NUMTEAMPLAYERS : Int) ∨ s.goaliesFree + 1 < (NUMTEAMGOALIES : Int)) := by
  simp only [constituteTeamCS, NUMTEAMPLAYERS, NUMTEAMGOALIES, Nat.cast_ofNat, Nat.cast_one]
  split_ifs with h1 h2 <;> simp_all

theorem cs_out_forming_iff (id : Nat) (s : FSt) :
    (constituteTeamCS id s).out = Outcome.forming ↔
      s.goaliesArrived + 1 ≤ 2 ∧ (NUMTEAMPLAYERS : Int) ≤ s.playersFree ∧
        (NUMTEAMGOALIES : Int) ≤ s.goaliesFree + 1 := by
  simp only [constituteTeamCS, NUMTEAMPLAYERS, NUMTEAMGOALIES, Nat.cast_ofNat, Nat.cast_one]
  split_ifs with h1 h2 <;> simp_all <;> omega

theorem cs_forming_char (id : Nat) (s : FSt)
    (h : (constituteTeamCS id s).out = Outcome.forming) :
    constituteTeamCS id s =
      { st := { goalieStat := s.goalieStat.set id GState.FORMING_TEAM,
                goaliesArrived := s.goaliesArrived + 1,
                goaliesFree := s.goaliesFree + 1 - (NUMTEAMGOALIES : Int),
                playersFree := s.playersFree - (NUMTEAMPLAYERS : Int),
                teamId := s.teamId + 1 },
        out := Outcome.forming, ret := s.teamId } := by
  simp only [constituteTeamCS, NUMTEAMPLAYERS, NUMTEAMGOALIES, Nat.cast_ofNat, Nat.cast_one] at h ⊢
  split_ifs at h ⊢ <;> simp_all

theorem cs_waiting_char (id : Nat) (s : FSt)
    (h : (constituteTeamCS id s).out = Outcome.waiting) :
    constituteTeamCS id s =
      { st := { goalieStat := s.goalieStat.set id GState.WAITING_TEAM,
                goaliesArrived := s.goaliesArrived + 1,
                goaliesFree := s.goaliesFree + 1,
                playersFree := s.playersFree,
                teamId := s.teamId },
        out := Outcome.waiting, ret := 0 } := by
  simp only [constituteTeamCS, NUMTEAMPLAYERS, NUMTEAMGOALIES, Nat.cast_ofNat, Nat.cast_one] at h ⊢
  split_ifs at h ⊢ <;> simp_all

theorem cs_late_char (id : Nat) (s : FSt)
    (h : (constituteTeamCS id s).out = Outcome.late) :
    constituteTeamCS id s =
      { st := { goalieStat := s.goalieStat.set id GState.LATE,
                goaliesArrived := s.goaliesArrived + 1,
                goaliesFree := s.goaliesFree + 1,
                playersFree := s.playersFree,
                teamId := s.teamId },
        out := Outcome.late, ret := 0 } := by
  simp only [constituteTeamCS, NUMTEAMPLAYERS, NUMTEAMGOALIES, Nat.cast_ofNat, Nat.cast_one] at h ⊢
  split_ifs at h ⊢ <;> simp_all

/-! Claim C1: the late check. -/

/-- C1: in goalieConstituteTeam a goalie is marked LATE with return value 0
exactly when, at its mutex-protected check, the goalies-arrived counter after
its own increment exceeds twice the per-team goalie quota (the literal
threshold 2 of the source equals 2 * NUMTEAMGOALIES); otherwise it proceeds
to the quota check, waiting exactly when one of the two quotas is not met. -/
theorem goalie_late_exactly_at_threshold (id : Nat) (s : FSt)
    (hid : id < s.goalieStat.length) :
    ((constituteTeamCS id s).out = Outcome.late ↔
      2 * (NUMTEAMGOALIES : Int) < s.goaliesArrived + 1)
    ∧ ((constituteTeamCS id s).out = Outcome.late →
        (constituteTeamCS id s).st.goalieStat.getD id GState.ARRIVING = GState.LATE
        ∧ (constituteTeamCS id s).ret = 0)
    ∧ ((constituteTeamCS id s).out ≠ Outcome.late →
        ((constituteTeamCS id s).out = Outcome.waiting ↔
          s.playersFree < (NUMTEAMPLAYERS : Int) ∨
            s.goaliesFree + 1 < (NUMTEAMGOALIES : Int))) := by
  refine ⟨?_, ?_, ?_⟩
  · rw [cs_out_late_iff]
    simp [NUMTEAMGOALIES]
  · intro h
    rw [cs_late_char id s h]
    exact ⟨getD_set_self _ _ _ _ hid, rfl⟩
  · intro h
    have harr : s.goaliesArrived + 1 ≤ 2 := by
      by_contra hc
      push_neg at hc
      exact h ((cs_out_late_iff id s).mpr (by omega))
    rw [cs_out_waiting_iff]
    simp [harr]

/-- Shared state of a third goalie arriving after two arrivals, used to
exercise the late branch. -/
def lateState : FSt :=
  { goalieStat := [GState.ARRIVING], goaliesArrived := 2, goaliesFree := 0,
    playersFree := 0, teamId := 1 }

/-- C1 witness: at lateState the hypothesis holds and the late equivalence
follows by applying the theorem. -/
theorem goalie_late_exactly_at_threshold_witness :
    0 < lateState.goalieStat.length
    ∧ ((constituteTeamCS 0 lateState).out = Outcome.late ↔
        2 * (NUMTEAMGOALIES : Int) < lateState.goaliesArrived + 1) :=
  ⟨by decide, (goalie_late_exactly_at_threshold 0 lateState (by decide)).1⟩

/-! Trace shapes of the three branches of goalieConstituteTeam. -/

theorem getElemD_set_self {α : Type} (l : List α) (i : Nat) (a d : α) (h : i < l.length) :
    (l.set i a)[i]?.getD d = a := by
  have h2 : i < (l.set i a).length := by simpa using h
  rw [List.getElem?_eq_getElem h2]
  simp [List.getElem_set_self]

theorem trace_waiting (id : Nat) (s : FSt) (hid : id < s.goalieStat.length)
    (h : (constituteTeamCS id s).out = Outcome.waiting) :
    constituteTeamTrace id s =
      [Event.lock, Event.unlock, Event.down Chan.goaliesWaitTeam,
        Event.up Chan.playerRegistered] := by
  simp only [constituteTeamTrace]
  rw [cs_waiting_char id s h]
  simp [getElemD_set_self _ _ _ _ hid]

theorem trace_late (id : Nat) (s : FSt) (hid : id < s.goalieStat.length)
    (h : (constituteTeamCS id s).out = Outcome.late) :
    constituteTeamTrace id s = [Event.lock, Event.unlock] := by
  simp only [constituteTeamTrace]
  rw [cs_late_char id s h]
  simp [getElemD_set_self _ _ _ _ hid]

theorem trace_forming (id : Nat) (s : FSt) (hid : id < s.goalieStat.length)
    (h : (constituteTeamCS id s).out = Outcome.forming) :
    constituteTeamTrace id s = Event.lock :: (formingScript ++ [Event.unlock]) := by
  simp only [constituteTeamTrace]
  rw [cs_forming_char id s h]
  simp [getElemD_set_self _ _ _ _ hid]

/-! Claim C2: blocking while holding the mutex. -/

/-- Shared state in which a goalie's constitution tips both quotas over their
thresholds, so that the forming branch runs. -/
def formingState : FSt :=
  { goalieStat := [GState.ARRIVING], goaliesArrived := 0, goaliesFree := 0,
    playersFree := 5, teamId := 1 }

/-- C2 counterexample: on the forming branch the goalie performs
NUMTEAMPLAYERS blocking waits on the playerRegistered channel while still
holding the mutex, so the mutex is not released before the release loop. -/
theorem mutex_held_across_registered_waits :
    blockingWhileHeld (constituteTeamTrace 0 formingState) false =
      List.replicate NUMTEAMPLAYERS Chan.playerRegistered
    ∧ List.replicate NUMTEAMPLAYERS Chan.playerRegistered ≠ ([] : List Chan) := by
  constructor
  · decide
  · decide

/-- C2 amended: arrive, waitReferee and playUntilEnd never block on a channel
while holding the mutex, and neither does goalieConstituteTeam on its waiting
and late branches (the waiting branch blocks on the team channel only after
the unlock); but on the FORMING_TEAM branch the NUMTEAMPLAYERS blocking waits
for registered acknowledgments happen while the mutex is held, the whole
release loop and the referee signal preceding the mutex release. -/
theorem blocking_while_holding_mutex_char (id : Nat) (s : FSt)
    (hid : id < s.goalieStat.length) :
    blockingWhileHeld arriveTrace false = []
    ∧ blockingWhileHeld waitRefereeTrace false = []
    ∧ blockingWhileHeld playUntilEndTrace false = []
    ∧ ((constituteTeamCS id s).out ≠ Outcome.forming →
        blockingWhileHeld (constituteTeamTrace id s) false = [])
    ∧ ((constituteTeamCS id s).out = Outcome.forming →
        blockingWhileHeld (constituteTeamTrace id s) false =
          List.replicate NUMTEAMPLAYERS Chan.playerRegistered) := by
  refine ⟨by decide, by decide, by decide, ?_, ?_⟩
  · intro h
    cases hout : (constituteTeamCS id s).out with
    | forming => exact absurd hout h
    | waiting =>
      rw [trace_waiting id s hid hout]
      decide
    | late =>
      rw [trace_late id s hid hout]
      decide
  · intro h
    rw [trace_forming id s hid h]
    decide

/-- C2 witness: at formingState the hypotheses hold and the amended theorem
yields the in-mutex registered waits. -/
theorem blocking_while_holding_mutex_char_witness :
    0 < formingState.goalieStat.length
    ∧ blockingWhileHeld (constituteTeamTrace 0 formingState) false =
        List.replicate NUMTEAMPLAYERS Chan.playerRegistered :=
  ⟨by decide,
    (blocking_while_holding_mutex_char 0 formingState (by decide)).2.2.2.2 (by decide)⟩

/-! Return value of goalieConstituteTeam on each branch. -/

theorem gct_waiting (id : Nat) (s wake : FSt) (hid : id < s.goalieStat.length)
    (h : (constituteTeamCS id s).out = Outcome.waiting) :
    goalieConstituteTeam id s wake = wake.teamId := by
  simp only [goalieConstituteTeam]
  rw [cs_waiting_char id s h]
  simp [getElemD_set_self _ _ _ _ hid]

theorem gct_forming (id : Nat) (s wake : FSt) (hid : id < s.goalieStat.length)
    (h : (constituteTeamCS id s).out = Outcome.forming) :
    goalieConstituteTeam id s wake = s.teamId := by
  simp only [goalieConstituteTeam]
  rw [cs_forming_char id s h]
  simp [getElemD_set_self _ _ _ _ hid]

theorem gct_late (id : Nat) (s wake : FSt) (hid : id < s.goalieStat.length)
    (h : (constituteTeamCS id s).out = Outcome.late) :
    goalieConstituteTeam id s wake = 0 := by
  simp only [goalieConstituteTeam]
  rw [cs_late_char id s h]
  simp [getElemD_set_self _ _ _ _ hid]

/-! Claim C3: zero return value means late. -/

/-- C3: goalieConstituteTeam returns 0 exactly when the goalie is late, and
main runs waitReferee and playUntilEnd exactly when the returned value is
nonzero.  The hypotheses 1 ≤ teamId reflect the function's documented return
contract (0 for late goalies, 1 for team 1, 2 for team 2): team identifiers
start at 1 and the counter only grows, so no assigned identifier is 0. -/
theorem return_zero_iff_late (id : Nat) (s wake : FSt)
    (hid : id < s.goalieStat.length) (hs : 1 ≤ s.teamId) (hw : 1 ≤ wake.teamId) :
    (goalieConstituteTeam id s wake = 0 ↔ (constituteTeamCS id s).out = Outcome.late)
    ∧ (mainPhases (goalieConstituteTeam id s wake) =
        [Phase.arriveP, Phase.constituteP, Phase.waitRefP, Phase.playP]
      ↔ goalieConstituteTeam id s wake ≠ 0) := by
  constructor
  · cases hout : (constituteTeamCS id s).out with
    | forming =>
      rw [gct_forming id s wake hid hout]
      simp
      omega
    | waiting =>
      rw [gct_waiting id s wake hid hout]
      simp
      omega
    | late =>
      rw [gct_late id s wake hid hout]
      simp
  · by_cases hr : goalieConstituteTeam id s wake = 0
    · simp [mainPhases, hr]
    · simp [mainPhases, hr]

/-- Shared state of the first goalie to arrive, with no free players yet, so
that the waiting branch runs. -/
def earlyState : FSt :=
  { goalieStat := [GState.ARRIVING], goaliesArrived := 0, goaliesFree := 0,
    playersFree := 0, teamId := 1 }

/-- Shared state at the moment the waiting goalie of earlyState is woken. -/
def earlyWake : FSt :=
  { goalieStat := [GState.WAITING_TEAM], goaliesArrived := 2, goaliesFree := 0,
    playersFree := 0, teamId := 1 }

/-- C3 witness: at earlyState the hypotheses hold and the zero-iff-late
equivalence follows by applying the theorem. -/
theorem return_zero_iff_late_witness :
    0 < earlyState.goalieStat.length ∧ 1 ≤ earlyState.teamId ∧ 1 ≤ earlyWake.teamId
    ∧ (goalieConstituteTeam 0 earlyState earlyWake = 0 ↔
        (constituteTeamCS 0 earlyState).out = Outcome.late) :=
  ⟨by decide, by decide, by decide,
    (return_zero_iff_late 0 earlyState earlyWake (by decide) (by decide) (by decide)).1⟩

/-! Claim C4: density of claimed team identifiers. -/

theorem claimedIds_map_range (ids : List Nat) (s : FSt) :
    claimedIds ids s =
      (List.range (formedCount ids s)).map (fun i : Nat => s.teamId + (i : Int))
    ∧ (runCS ids s).teamId = s.teamId + (formedCount ids s : Int) := by
  induction ids generalizing s with
  | nil => simp [claimedIds, formedCount, runCS]
  | cons id rest ih =>
    by_cases h : (constituteTeamCS id s).out = Outcome.forming
    · have hst := cs_forming_char id s h
      have hteam : (constituteTeamCS id s).st.teamId = s.teamId + 1 := by rw [hst]
      have hret : (constituteTeamCS id s).ret = s.teamId := by rw [hst]
      obtain ⟨ih1, ih2⟩ := ih (constituteTeamCS id s).st
      constructor
      · simp only [claimedIds, formedCount]
        rw [if_pos h, if_pos h, ih1, hret, hteam, Nat.add_comm 1, List.range_succ_eq_map,
          List.map_cons, List.map_map]
        simp only [List.singleton_append, List.cons_eq_cons]
        refine ⟨by simp, List.map_congr_left ?_⟩
        intro a ha
        simp only [Function.comp_apply]
        push_cast
        ring
      · simp only [runCS, formedCount]
        rw [if_pos h, ih2, hteam]
        push_cast
        ring
    · have hteam : (constituteTeamCS id s).st.teamId = s.teamId := by
        cases hout : (constituteTeamCS id s).out with
        | forming => exact absurd hout h
        | waiting => rw [cs_waiting_char id s hout]
        | late => rw [cs_late_char id s hout]
      obtain ⟨ih1, ih2⟩ := ih (constituteTeamCS id s).st
      constructor
      · simp only [claimedIds, formedCount]
        rw [if_neg h, if_neg h, ih1, hteam]
        simp
      · simp only [runCS, formedCount]
        rw [if_neg h, ih2, hteam]
        simp

/-- C4 amended: along any run of constitution critical sections, the claimed
team identifiers are exactly the consecutive values starting at the initial
teamId (dense, strictly increasing, no value reused or skipped), and teamId
is incremented exactly once per formed team.  With the initial value 1 forced
by the documented return contract, the claimed sequence is 1, ..., k rather
than 0, ..., k-1. -/
theorem teamId_dense_from_initial (ids : List Nat) (s : FSt) :
    claimedIds ids s =
      (List.range (formedCount ids s)).map (fun i : Nat => s.teamId + (i : Int))
    ∧ (runCS ids s).teamId = s.teamId + (formedCount ids s : Int)
    ∧ (claimedIds ids s).Pairwise (fun a b => a < b) := by
  obtain ⟨h1, h2⟩ := claimedIds_map_range ids s
  refine ⟨h1, h2, ?_⟩
  rw [h1]
  exact List.Pairwise.map _ (fun a b hab => by omega) (List.pairwise_lt_range _)

/-- Shared state from which one goalie forms one team, with teamId at the
value 1 the documented return contract mandates at start. -/
def oneTeamState : FSt :=
  { goalieStat := [GState.ARRIVING], goaliesArrived := 0, goaliesFree := 0,
    playersFree := 5, teamId := 1 }

/-- The same state but with teamId starting at 0 instead. -/
def zeroTeamIdState : FSt :=
  { goalieStat := [GState.ARRIVING], goaliesArrived := 0, goaliesFree := 0,
    playersFree := 5, teamId := 0 }

/-- C4 counterexample: a run that forms k = 1 team claims the identifier
sequence [1], not [0]; and if teamId did start at 0, the first forming goalie
would return 0 and main would drop it as if late, contradicting the return
contract, so the 0-based sequence of the claim is unrealizable. -/
theorem teamId_not_zero_based :
    formedCount [0] oneTeamState = 1
    ∧ claimedIds [0] oneTeamState = [(1 : Int)]
    ∧ claimedIds [0] oneTeamState ≠ [(0 : Int)]
    ∧ goalieConstituteTeam 0 zeroTeamIdState zeroTeamIdState = 0
    ∧ mainPhases (goalieConstituteTeam 0 zeroTeamIdState zeroTeamIdState) =
        [Phase.arriveP, Phase.constituteP] := by
  refine ⟨by decide, by decide, by decide, by decide, by decide⟩

/-! Claim C5: how the waiting goalie obtains its team identifier. -/

/-- Shared state of a goalie arriving before any player is free, so its
quota check fails. -/
def quotaShortState : FSt :=
  { goalieStat := [GState.ARRIVING], goaliesArrived := 0, goaliesFree := 0,
    playersFree := 0, teamId := 1 }

/-- A post-wake shared state whose teamId field holds 7. -/
def wakeSeven : FSt :=
  { goalieStat := [GState.WAITING_TEAM], goaliesArrived := 2, goaliesFree := 0,
    playersFree := 0, teamId := 7 }

/-- A post-wake shared state whose teamId field holds 3. -/
def wakeThree : FSt :=
  { goalieStat := [GState.WAITING_TEAM], goaliesArrived := 2, goaliesFree := 0,
    playersFree := 0, teamId := 3 }

/-- C5 counterexample: the value returned by the released goalie is whatever
the shared teamId field holds at the moment of the post-unlock read — the
channels carry no payload — so identical hand-offs with different post-unlock
counter values yield different returns, refuting that the identifier is
received via the hand-off rather than by re-reading shared state. -/
theorem waiting_ret_reads_shared_counter :
    goalieConstituteTeam 0 quotaShortState wakeSeven = 7
    ∧ goalieConstituteTeam 0 quotaShortState wakeThree = 3
    ∧ (7 : Int) ≠ 3 := by
  refine ⟨by decide, by decide, by decide⟩

/-- C5 amended: a goalie whose quota check fails transitions to WAITING_TEAM,
blocks on the team channel only after the mutex release, then returns the
value of the shared teamId field as re-read after the unlock (a
read-after-unlock of the counter, not a hand-off payload) and signals exactly
one registered acknowledgment; whenever the waking Arbiter defers its
post-increment until after this acknowledgment, the re-read value equals the
identifier that Arbiter assigns. -/
theorem waiting_goalie_reads_assigned_id (id : Nat) (s wake : FSt)
    (hid : id < s.goalieStat.length)
    (h : (constituteTeamCS id s).out = Outcome.waiting) :
    (constituteTeamCS id s).st.goalieStat.getD id GState.ARRIVING = GState.WAITING_TEAM
    ∧ constituteTeamTrace id s =
        [Event.lock, Event.unlock, Event.down Chan.goaliesWaitTeam,
          Event.up Chan.playerRegistered]
    ∧ blockingWhileHeld (constituteTeamTrace id s) false = []
    ∧ goalieConstituteTeam id s wake = wake.teamId
    ∧ (∀ assigned : Int, wake.teamId = assigned →
        goalieConstituteTeam id s wake = assigned) := by
  refine ⟨?_, trace_waiting id s hid h, ?_, gct_waiting id s wake hid h, ?_⟩
  · rw [cs_waiting_char id s h]
    exact getD_set_self _ _ _ _ hid
  · rw [trace_waiting id s hid h]
    decide
  · intro assigned ha
    rw [gct_waiting id s wake hid h, ha]

/-- C5 witness: at quotaShortState the hypotheses hold and the theorem gives
the post-wake teamId as return value. -/
theorem waiting_goalie_reads_assigned_id_witness :
    goalieConstituteTeam 0 quotaShortState wakeSeven = wakeSeven.teamId :=
  (waiting_goalie_reads_assigned_id 0 quotaShortState wakeSeven (by decide)
    (by decide)).2.2.2.1

/-! Claim C6: the Arbiter goalie's release/acknowledge/claim/signal order. -/

/-- C6: on the FORMING_TEAM branch the goalie releases exactly NUMTEAMPLAYERS
waiting players, each release immediately followed by the blocking wait for
that player's registered acknowledgment; the teamId claim comes only after
all NUMTEAMPLAYERS acknowledgments, the referee channel is signalled exactly
once and only after the claim, and the claimed value is the pre-increment
teamId, which is the value returned while the counter advances by one. -/
theorem forming_release_protocol (id : Nat) (s : FSt)
    (hid : id < s.goalieStat.length)
    (h : (constituteTeamCS id s).out = Outcome.forming) :
    constituteTeamTrace id s = Event.lock :: (formingScript ++ [Event.unlock])
    ∧ (constituteTeamTrace id s).count (Event.up Chan.playersWaitTeam) = NUMTEAMPLAYERS
    ∧ (constituteTeamTrace id s).count (Event.down Chan.playerRegistered) = NUMTEAMPLAYERS
    ∧ (constituteTeamTrace id s).count (Event.up Chan.refereeWaitTeams) = 1
    ∧ formingLoop NUMTEAMPLAYERS =
        (List.replicate NUMTEAMPLAYERS
          [Event.up Chan.playersWaitTeam, Event.down Chan.playerRegistered]).flatten
    ∧ (∀ i, i < (constituteTeamTrace id s).length →
        (constituteTeamTrace id s)[i]? = some (Event.up Chan.playersWaitTeam) →
        (constituteTeamTrace id s)[i + 1]? = some (Event.down Chan.playerRegistered))
    ∧ (∀ i, i < (constituteTeamTrace id s).length →
        ∀ j, j < (constituteTeamTrace id s).length →
        (constituteTeamTrace id s)[i]? = some Event.claimTeam →
        (constituteTeamTrace id s)[j]? = some (Event.down Chan.playerRegistered) →
        j < i)
    ∧ (∀ i, i < (constituteTeamTrace id s).length →
        ∀ j, j < (constituteTeamTrace id s).length →
        (constituteTeamTrace id s)[i]? = some Event.claimTeam →
        (constituteTeamTrace id s)[j]? = some (Event.up Chan.refereeWaitTeams) →
        i < j)
    ∧ (constituteTeamCS id s).ret = s.teamId
    ∧ (constituteTeamCS id s).st.teamId = s.teamId + 1 := by
  have htr := trace_forming id s hid h
  have hst := cs_forming_char id s h
  rw [htr, hst]
  refine ⟨rfl, by decide, by decide, by decide, by decide, by decide, by decide, by decide,
    rfl, rfl⟩

/-- C6 witness: at formingState the hypotheses hold and the theorem yields
the NUMTEAMPLAYERS player releases. -/
theorem forming_release_protocol_witness :
    0 < formingState.goalieStat.length
    ∧ (constituteTeamTrace 0 formingState).count (Event.up Chan.playersWaitTeam) =
        NUMTEAMPLAYERS :=
  ⟨by decide, (forming_release_protocol 0 formingState (by decide) (by decide)).2.1⟩

/-! Claim C7: guarded bulk decrease of the free counters. -/

/-- C7: within the single critical section of goalieConstituteTeam the free
counters decrease only on the forming branch, then by exactly the two
per-team quotas, and only after that same critical section verified both
quotas met on the current (post-increment) field values; on the other
branches and in every other goalie operation neither counter decreases. -/
theorem free_counters_guarded_decrease (id : Nat) (team : Int) (s : FSt) :
    ((constituteTeamCS id s).out = Outcome.forming →
      (constituteTeamCS id s).st.playersFree = s.playersFree - (NUMTEAMPLAYERS : Int)
      ∧ (constituteTeamCS id s).st.goaliesFree = s.goaliesFree + 1 - (NUMTEAMGOALIES : Int)
      ∧ (NUMTEAMPLAYERS : Int) ≤ s.playersFree
      ∧ (NUMTEAMGOALIES : Int) ≤ s.goaliesFree + 1)
    ∧ ((constituteTeamCS id s).out ≠ Outcome.forming →
      (constituteTeamCS id s).st.playersFree = s.playersFree
      ∧ (constituteTeamCS id s).st.goaliesFree = s.goaliesFree + 1)
    ∧ (arriveFSt id s).playersFree = s.playersFree
    ∧ (arriveFSt id s).goaliesFree = s.goaliesFree
    ∧ (waitRefereeFSt id team s).playersFree = s.playersFree
    ∧ (waitRefereeFSt id team s).goaliesFree = s.goaliesFree
    ∧ (playUntilEndFSt id team s).playersFree = s.playersFree
    ∧ (playUntilEndFSt id team s).goaliesFree = s.goaliesFree := by
  refine ⟨?_, ?_, rfl, rfl, rfl, rfl, rfl, rfl⟩
  · intro h
    have hq := (cs_out_forming_iff id s).mp h
    rw [cs_forming_char id s h]
    exact ⟨rfl, rfl, hq.2.1, hq.2.2⟩
  · intro h
    cases hout : (constituteTeamCS id s).out with
    | forming => exact absurd hout h
    | waiting =>
      rw [cs_waiting_char id s hout]
      exact ⟨rfl, rfl⟩
    | late =>
      rw [cs_late_char id s hout]
      exact ⟨rfl, rfl⟩

/-- C7 witness: at formingState the forming branch runs and the player
counter drops by exactly the player quota. -/
theorem free_counters_guarded_decrease_witness :
    (constituteTeamCS 0 formingState).out = Outcome.forming
    ∧ (constituteTeamCS 0 formingState).st.playersFree =
        formingState.playersFree - (NUMTEAMPLAYERS : Int) :=
  ⟨by decide, ((free_counters_guarded_decrease 0 1 formingState).1 (by decide)).1⟩

/-! Claim C8: conservation and non-negativity of the free counters. -/

theorem cs_counters_nonneg (id : Nat) (s : FSt) (hg : 0 ≤ s.goaliesFree)
    (hp : 0 ≤ s.playersFree) :
    0 ≤ (constituteTeamCS id s).st.goaliesFree
    ∧ 0 ≤ (constituteTeamCS id s).st.playersFree := by
  cases hout : (constituteTeamCS id s).out with
  | forming =>
    have hq := (cs_out_forming_iff id s).mp hout
    simp only [cs_forming_char id s hout, NUMTEAMGOALIES, NUMTEAMPLAYERS, Nat.cast_ofNat,
      Nat.cast_one] at hq ⊢
    omega
  | waiting =>
    simp only [cs_waiting_char id s hout]
    omega
  | late =>
    simp only [cs_late_char id s hout]
    omega

theorem runCS_counters (ids : List Nat) (s : FSt) :
    (runCS ids s).goaliesFree =
      s.goaliesFree + (ids.length : Int)
        - (NUMTEAMGOALIES : Int) * (formedCount ids s : Int)
    ∧ (runCS ids s).playersFree =
      s.playersFree - (NUMTEAMPLAYERS : Int) * (formedCount ids s : Int) := by
  induction ids generalizing s with
  | nil => simp [runCS, formedCount]
  | cons id rest ih =>
    obtain ⟨ih1, ih2⟩ := ih (constituteTeamCS id s).st
    by_cases h : (constituteTeamCS id s).out = Outcome.forming
    · have hst := cs_forming_char id s h
      have hg : (constituteTeamCS id s).st.goaliesFree =
          s.goaliesFree + 1 - (NUMTEAMGOALIES : Int) := by rw [hst]
      have hp : (constituteTeamCS id s).st.playersFree =
          s.playersFree - (NUMTEAMPLAYERS : Int) := by rw [hst]
      constructor
      · simp only [runCS, formedCount, List.length_cons]
        rw [if_pos h, ih1, hg]
        push_cast
        ring
      · simp only [runCS, formedCount, List.length_cons]
        rw [if_pos h, ih2, hp]
        push_cast
        ring
    · have hgp : (constituteTeamCS id s).st.goaliesFree = s.goaliesFree + 1
          ∧ (constituteTeamCS id s).st.playersFree = s.playersFree := by
        cases hout : (constituteTeamCS id s).out with
        | forming => exact absurd hout h
        | waiting =>
          rw [cs_waiting_char id s hout]
          exact ⟨rfl, rfl⟩
        | late =>
          rw [cs_late_char id s hout]
          exact ⟨rfl, rfl⟩
      constructor
      · simp only [runCS, formedCount, List.length_cons]
        rw [if_neg h, ih1, hgp.1]
        push_cast
        ring
      · simp only [runCS, formedCount, List.length_cons]
        rw [if_neg h, ih2, hgp.2]
        push_cast
        ring

theorem runCS_take_nonneg (ids : List Nat) (s : FSt) (hg : 0 ≤ s.goaliesFree)
    (hp : 0 ≤ s.playersFree) :
    ∀ n : Nat, 0 ≤ (runCS (ids.take n) s).goaliesFree
      ∧ 0 ≤ (runCS (ids.take n) s).playersFree := by
  induction ids generalizing s with
  | nil =>
    intro n
    simpa [runCS] using ⟨hg, hp⟩
  | cons id rest ih =>
    intro n
    cases n with
    | zero => simpa [runCS] using ⟨hg, hp⟩
    | succ m =>
      have hstep := cs_counters_nonneg id s hg hp
      simpa [List.take_succ_cons, runCS] using
        ih (constituteTeamCS id s).st hstep.1 hstep.2 m

/-- C8: after any run of constitution critical sections, goaliesFree equals
the pre-formation free count (its initial value plus one increment per
arriving goalie, late goalies included) minus the goalie quota times the
number of teams formed, playersFree equals its initial value minus the player
quota times the number of teams formed, and, starting from non-negative
counters, neither counter is negative at any point of the run. -/
theorem free_counter_conservation (ids : List Nat) (s : FSt)
    (hg : 0 ≤ s.goaliesFree) (hp : 0 ≤ s.playersFree) :
    (runCS ids s).goaliesFree =
      s.goaliesFree + (ids.length : Int)
        - (NUMTEAMGOALIES : Int) * (formedCount ids s : Int)
    ∧ (runCS ids s).playersFree =
      s.playersFree - (NUMTEAMPLAYERS : Int) * (formedCount ids s : Int)
    ∧ ∀ n : Nat, 0 ≤ (runCS (ids.take n) s).goaliesFree
        ∧ 0 ≤ (runCS (ids.take n) s).playersFree := by
  obtain ⟨h1, h2⟩ := runCS_counters ids s
  exact ⟨h1, h2, runCS_take_nonneg ids s hg hp⟩

/-- Shared state from which two goalies arrive in turn and the first one
forms a team. -/
def twoGoalieState : FSt :=
  { goalieStat := [GState.ARRIVING, GState.ARRIVING], goaliesArrived := 0,
    goaliesFree := 0, playersFree := 10, teamId := 1 }

/-- C8 witness: at twoGoalieState the hypotheses hold and the goalie counter
conservation equation follows by applying the theorem. -/
theorem free_counter_conservation_witness :
    0 ≤ twoGoalieState.goaliesFree ∧ 0 ≤ twoGoalieState.playersFree
    ∧ (runCS [0, 1] twoGoalieState).goaliesFree =
        twoGoalieState.goaliesFree + (([0, 1] : List Nat).length : Int)
          - (NUMTEAMGOALIES : Int) * (formedCount [0, 1] twoGoalieState : Int) :=
  ⟨by decide, by decide,
    (free_counter_conservation [0, 1] twoGoalieState (by decide) (by decide)).1⟩

/-! Claim C9: a late goalie takes no further part. -/

/-- C9: a goalie whose constitution check runs when at least two goalies have
already arrived (as is the case once both teams are fully claimed, each team
having consumed NUMTEAMGOALIES arrived goalies) goes directly from ARRIVING
to LATE, its whole life-cycle trace contains no blocking channel wait at all
(neither the team channel nor the referee start or end channels), and main
never invokes waitReferee or playUntilEnd for it. -/
theorem late_goalie_no_further_part (id : Nat) (s wake : FSt)
    (hid : id < s.goalieStat.length)
    (hstat : s.goalieStat.getD id GState.ARRIVING = GState.ARRIVING)
    (hl : 2 ≤ s.goaliesArrived) :
    (constituteTeamCS id s).out = Outcome.late
    ∧ (constituteTeamCS id s).st.goalieStat.getD id GState.ARRIVING = GState.LATE
    ∧ goalieConstituteTeam id s wake = 0
    ∧ lifeCycleTrace id s wake = arriveTrace ++ constituteTeamTrace id s
    ∧ (∀ e ∈ lifeCycleTrace id s wake, ∀ c : Chan, e ≠ Event.down c)
    ∧ mainPhases (goalieConstituteTeam id s wake) =
        [Phase.arriveP, Phase.constituteP] := by
  have hout : (constituteTeamCS id s).out = Outcome.late :=
    (cs_out_late_iff id s).mpr (by omega)
  have hret := gct_late id s wake hid hout
  have htr : lifeCycleTrace id s wake = arriveTrace ++ constituteTeamTrace id s := by
    simp [lifeCycleTrace, hret]
  refine ⟨hout, ?_, hret, htr, ?_, ?_⟩
  · rw [cs_late_char id s hout]
    exact getD_set_self _ _ _ _ hid
  · intro e he c
    rw [htr, trace_late id s hid hout] at he
    simp only [arriveTrace, List.mem_append, List.mem_cons, List.not_mem_nil,
      or_false] at he
    rcases he with (rfl | rfl) | (rfl | rfl) <;> simp
  · simp [mainPhases, hret]

/-- C9 witness: at lateState the hypotheses hold, and main stops after the
constitution phase. -/
theorem late_goalie_no_further_part_witness :
    0 < lateState.goalieStat.length
    ∧ lateState.goalieStat.getD 0 GState.ARRIVING = GState.ARRIVING
    ∧ 2 ≤ lateState.goaliesArrived
    ∧ mainPhases (goalieConstituteTeam 0 lateState lateState) =
        [Phase.arriveP, Phase.constituteP] :=
  ⟨by decide, by decide, by decide,
    (late_goalie_no_further_part 0 lateState lateState (by decide) (by decide)
      (by decide)).2.2.2.2.2⟩

/-! Claim C10: waitReferee and playUntilEnd are frame-local. -/

/-- C10: waitReferee and playUntilEnd write only the calling goalie's own
status entry (to WAITING_START_1 or WAITING_START_2, and to PLAYING_1 or
PLAYING_2, according to whether team equals 1) and leave goaliesArrived,
goaliesFree, playersFree, teamId and every other goalie's status unchanged. -/
theorem wait_play_frame (id : Nat) (team : Int) (s : FSt)
    (hid : id < s.goalieStat.length) :
    (waitRefereeFSt id team s).goalieStat.getD id GState.ARRIVING =
      (if team = 1 then GState.WAITING_START_1 else GState.WAITING_START_2)
    ∧ (playUntilEndFSt id team s).goalieStat.getD id GState.ARRIVING =
      (if team = 1 then GState.PLAYING_1 else GState.PLAYING_2)
    ∧ (∀ j, j ≠ id →
        (waitRefereeFSt id team s).goalieStat.getD j GState.ARRIVING =
          s.goalieStat.getD j GState.ARRIVING
        ∧ (playUntilEndFSt id team s).goalieStat.getD j GState.ARRIVING =
          s.goalieStat.getD j GState.ARRIVING)
    ∧ (waitRefereeFSt id team s).goaliesArrived = s.goaliesArrived
    ∧ (waitRefereeFSt id team s).goaliesFree = s.goaliesFree
    ∧ (waitRefereeFSt id team s).playersFree = s.playersFree
    ∧ (waitRefereeFSt id team s).teamId = s.teamId
    ∧ (playUntilEndFSt id team s).goaliesArrived = s.goaliesArrived
    ∧ (playUntilEndFSt id team s).goaliesFree = s.goaliesFree
    ∧ (playUntilEndFSt id team s).playersFree = s.playersFree
    ∧ (playUntilEndFSt id team s).teamId = s.teamId := by
  refine ⟨getD_set_self _ _ _ _ hid, getD_set_self _ _ _ _ hid, ?_,
    rfl, rfl, rfl, rfl, rfl, rfl, rfl, rfl⟩
  intro j hj
  exact ⟨getD_set_other _ _ _ _ _ (Ne.symm hj), getD_set_other _ _ _ _ _ (Ne.symm hj)⟩

/-- C10 witness: at earlyState the hypothesis holds and waitReferee leaves
the teamId field unchanged. -/
theorem wait_play_frame_witness :
    0 < earlyState.goalieStat.length
    ∧ (waitRefereeFSt 0 1 earlyState).teamId = earlyState.teamId :=
  ⟨by decide, (wait_play_frame 0 1 earlyState (by decide)).2.2.2.2.2.2.1⟩
